import Mathlib

/-!
Verification of the folder-membership resolution engine of the Telegram
data extractor (tfolex.py): dialog classification, rule-based folder
matching, concurrent peer-name resolution, and the per-folder record
construction that unions, subtracts and sorts the included names.

The Python code is embedded shallowly: Telethon dialogs, entities, peers
and dialog filters become Lean structures holding exactly the attributes
the program reads; the external `client.get_entity` call becomes an
explicit resolver function `Peer → Option Entity` where `none` stands for
a raised exception (asyncio.gather with return_exceptions=True).
-/

namespace Tfolex

/-- An entity returned by `client.get_entity`.  Python probes attributes
with `getattr(entity, attr, default)`, so attributes that may be absent
(`title` on users, `first_name` on channels) are `Option`s, and the
boolean attributes `contact` / `bot` default to `False` when absent. -/
structure Entity where
  id : Nat
  title : Option String
  first_name : Option String
  contact : Bool
  bot : Bool
deriving DecidableEq, Repr

/-- A Telethon dialog as read by the program: its display name, the three
type flags, the status flags, and its entity. -/
structure Dialog where
  name : String
  is_group : Bool
  is_channel : Bool
  is_user : Bool
  muted : Bool
  unread_count : Nat
  unread_mark : Bool
  archived : Bool
  entity : Entity
deriving DecidableEq, Repr

/-- A peer reference: `PeerChannel(channel_id)`, `PeerChat(chat_id)` or
`PeerUser(user_id)`. -/
inductive Peer where
  | channel (channel_id : Nat)
  | chat (chat_id : Nat)
  | user (user_id : Nat)
deriving DecidableEq, Repr

/-- `folder.title` is a TextWithEntities object; the program reads
`folder.title.text`. -/
structure TextWithEntities where
  text : String
deriving DecidableEq, Repr

/-- A `types.DialogFilter`: identity, the three explicit peer lists, and
the eight rule flags. -/
structure DialogFilter where
  id : Nat
  title : TextWithEntities
  emoticon : Option String
  pinned_peers : List Peer
  include_peers : List Peer
  exclude_peers : List Peer
  contacts : Bool
  non_contacts : Bool
  groups : Bool
  broadcasts : Bool
  bots : Bool
  exclude_muted : Bool
  exclude_read : Bool
  exclude_archived : Bool
deriving DecidableEq, Repr

/-- `_get_chat_type_string` (tfolex.py lines 83-91): group, then channel,
then user (bot/personal on the entity's `bot` attribute), else unknown. -/
def getChatTypeString (dialog : Dialog) : String :=
  if dialog.is_group then "Group"
  else if dialog.is_channel then "Channel"
  else if dialog.is_user then (if dialog.entity.bot then "Bot" else "Personal")
  else "Unknown"

/-- The rule-based exclusion condition of `_get_rule_based_chat_names`
(lines 102-104): `(folder.exclude_muted and dialog.muted) or
(folder.exclude_read and dialog.unread_count == 0 and not dialog.unread_mark)
or (folder.exclude_archived and dialog.archived)`. -/
def ruleExcludes (folder : DialogFilter) (dialog : Dialog) : Bool :=
  (folder.exclude_muted && dialog.muted) ||
  (folder.exclude_read && dialog.unread_count == 0 && !dialog.unread_mark) ||
  (folder.exclude_archived && dialog.archived)

/-- The rule-based inclusion condition of `_get_rule_based_chat_names`
(lines 108-119): contacts / groups / broadcasts / bots / non_contacts,
with `is_contact = getattr(entity, 'contact', False)`,
`is_bot = getattr(entity, 'bot', False)` and
`is_personal_non_contact = dialog.is_user and not is_contact and not is_bot`. -/
def ruleIncludes (folder : DialogFilter) (dialog : Dialog) : Bool :=
  let is_contact := dialog.entity.contact
  let is_bot := dialog.entity.bot
  let is_personal_non_contact := dialog.is_user && !is_contact && !is_bot
  (folder.contacts && is_contact) ||
  (folder.groups && dialog.is_group) ||
  (folder.broadcasts && dialog.is_channel) ||
  (folder.bots && is_bot) ||
  (folder.non_contacts && is_personal_non_contact)

/-- `_get_rule_based_chat_names` (lines 93-122): walk `all_dialogs` in
order; skip a dialog when the exclusion condition fires, append
`dialog.name` when the inclusion condition holds. -/
def getRuleBasedChatNames (folder : DialogFilter) : List Dialog → List String
  | [] => []
  | dialog :: rest =>
    if ruleExcludes folder dialog then getRuleBasedChatNames folder rest
    else if ruleIncludes folder dialog then
      dialog.name :: getRuleBasedChatNames folder rest
    else getRuleBasedChatNames folder rest

/-- The identifier embedded in the failure placeholder (line 182):
`getattr(peer, 'channel_id', getattr(peer, 'user_id', 'N/A'))` — a
`PeerChannel` has `channel_id`, a `PeerUser` has `user_id`, and a
`PeerChat` has neither (it has `chat_id`), so it falls to `'N/A'`. -/
def peerIdStr : Peer → String
  | .channel channel_id => toString channel_id
  | .chat _ => "N/A"
  | .user user_id => toString user_id

/-- The name taken from a successfully resolved entity (line 185):
`getattr(res, 'title', getattr(res, 'first_name', f'User {res.id}'))`. -/
def entityName (e : Entity) : String :=
  match e.title with
  | some t => t
  | none =>
    match e.first_name with
    | some f => f
    | none => "User " ++ toString e.id

/-- One slot of the result loop of `_get_names_for_peers` (lines 179-185):
an exception becomes the placeholder string, a result becomes its name. -/
def resolveOne (resolve : Peer → Option Entity) (p : Peer) : String :=
  match resolve p with
  | none => "Unknown/Inaccessible Entity (ID: " ++ peerIdStr p ++ ")"
  | some e => entityName e

/-- `_get_names_for_peers` (lines 168-186): empty input returns
immediately; otherwise one `get_entity` task per peer, gathered in input
order, each slot mapped by `resolveOne`. -/
def getNamesForPeers (resolve : Peer → Option Entity) (peers : List Peer) : List String :=
  if peers.isEmpty then []
  else peers.map (resolveOne resolve)

/-- The number of `get_entity` tasks `_get_names_for_peers` creates: none
on the early empty return, else one per peer (line 175). -/
def resolutionRequests (peers : List Peer) : Nat :=
  if peers.isEmpty then 0 else peers.length

/-- The per-folder output record built in `_extract_folders`
(lines 252-261). -/
structure FolderRecord where
  folder_name : String
  folder_id : Nat
  emoticon : String
  pinned_chats : List String
  included_chats : List String
  excluded_chats : List String
  rule_contacts : Bool
  rule_non_contacts : Bool
  rule_groups : Bool
  rule_channels : Bool
  rule_bots : Bool
  rule_exclude_muted : Bool
  rule_exclude_read : Bool
  rule_exclude_archived : Bool
deriving DecidableEq, Repr

/-- The per-folder body of `_extract_folders` (lines 234-261): resolve the
three explicit peer lists, compute the rule-based names, take
`set(explicitly_included_names) | set(rule_based_names)` (embedded as
dedup of the concatenation — same underlying set), keep the names not in
`explicitly_excluded_names`, sort, and assemble the record
(`folder.emoticon or "None"` maps the absent and the empty emoticon to
`"None"`). -/
def extractFolderRecord (resolve : Peer → Option Entity)
    (folder : DialogFilter) (all_dialogs : List Dialog) : FolderRecord :=
  let pinned_names := getNamesForPeers resolve folder.pinned_peers
  let explicitly_included_names := getNamesForPeers resolve folder.include_peers
  let explicitly_excluded_names := getNamesForPeers resolve folder.exclude_peers
  let rule_based_names := getRuleBasedChatNames folder all_dialogs
  let combined_included_set := (explicitly_included_names ++ rule_based_names).dedup
  let final_included_names := List.insertionSort (· ≤ ·)
    (combined_included_set.filter (fun name => !explicitly_excluded_names.contains name))
  { folder_name := folder.title.text
    folder_id := folder.id
    emoticon := match folder.emoticon with
      | some e => if e = "" then "None" else e
      | none => "None"
    pinned_chats := pinned_names
    included_chats := final_included_names
    excluded_chats := explicitly_excluded_names
    rule_contacts := folder.contacts
    rule_non_contacts := folder.non_contacts
    rule_groups := folder.groups
    rule_channels := folder.broadcasts
    rule_bots := folder.bots
    rule_exclude_muted := folder.exclude_muted
    rule_exclude_read := folder.exclude_read
    rule_exclude_archived := folder.exclude_archived }

/-! ### Helper lemmas -/

/-- The early empty return of `_get_names_for_peers` agrees with the
general gather: the result is always the slot-wise map over the peers. -/
lemma getNamesForPeers_eq_map (resolve : Peer → Option Entity) (peers : List Peer) :
    getNamesForPeers resolve peers = peers.map (resolveOne resolve) := by
  cases peers <;> rfl

/-- Membership in the rule-based name list: some dialog of the list
survives the exclusion short-circuit, passes the inclusion test, and
bears the name. -/
lemma mem_getRuleBasedChatNames (folder : DialogFilter) (name : String) :
    ∀ dialogs : List Dialog, name ∈ getRuleBasedChatNames folder dialogs ↔
      ∃ d ∈ dialogs, ruleExcludes folder d = false ∧ ruleIncludes folder d = true ∧
        d.name = name
  | [] => by simp [getRuleBasedChatNames]
  | d :: rest => by
    rcases he : ruleExcludes folder d <;> rcases hi : ruleIncludes folder d <;>
      simp [getRuleBasedChatNames, he, hi,
        mem_getRuleBasedChatNames folder name rest, eq_comm (a := name)]

/-- A dialog that the matcher skips (excluded, or matching no rule)
contributes nothing: deleting it from the dialog list leaves the
rule-based name list unchanged. -/
lemma getRuleBasedChatNames_skip (folder : DialogFilter) (d : Dialog)
    (h : ruleExcludes folder d = true ∨ ruleIncludes folder d = false) :
    ∀ ds1 ds2 : List Dialog,
      getRuleBasedChatNames folder (ds1 ++ d :: ds2) =
        getRuleBasedChatNames folder (ds1 ++ ds2)
  | [], ds2 => by
    rcases h with h | h
    · simp [getRuleBasedChatNames, h]
    · rcases he : ruleExcludes folder d <;>
        simp [getRuleBasedChatNames, he, h]
  | a :: tl, ds2 => by
    rcases he : ruleExcludes folder a <;>
      rcases hi : ruleIncludes folder a <;>
        simp [getRuleBasedChatNames, he, hi, getRuleBasedChatNames_skip folder d h tl ds2]

/-- Occurrence count in the rule-based name list: one occurrence per
dialog of the list that survives exclusion, matches a rule, and bears
the name — never more than one per dialog, however many rules match. -/
lemma count_getRuleBasedChatNames (folder : DialogFilter) (name : String) :
    ∀ dialogs : List Dialog, (getRuleBasedChatNames folder dialogs).count name =
      (dialogs.filter (fun d =>
        !ruleExcludes folder d && ruleIncludes folder d && d.name == name)).length
  | [] => rfl
  | d :: rest => by
    rcases he : ruleExcludes folder d <;> rcases hi : ruleIncludes folder d <;>
      simp [getRuleBasedChatNames, he, hi, List.filter_cons, List.count_cons,
        count_getRuleBasedChatNames folder name rest, eq_comm (a := name)] <;>
      split <;> simp_all

/-- The final included list of a folder record, unfolded. -/
lemma included_chats_def (resolve : Peer → Option Entity)
    (folder : DialogFilter) (all_dialogs : List Dialog) :
    (extractFolderRecord resolve folder all_dialogs).included_chats =
      List.insertionSort (· ≤ ·)
        (((getNamesForPeers resolve folder.include_peers ++
           getRuleBasedChatNames folder all_dialogs).dedup).filter
          (fun name =>
            !(getNamesForPeers resolve folder.exclude_peers).contains name)) := rfl

/-- Membership in the final included list is union minus subtraction. -/
lemma mem_included_chats (resolve : Peer → Option Entity)
    (folder : DialogFilter) (all_dialogs : List Dialog) (name : String) :
    name ∈ (extractFolderRecord resolve folder all_dialogs).included_chats ↔
      ((name ∈ getNamesForPeers resolve folder.include_peers ∨
        name ∈ getRuleBasedChatNames folder all_dialogs) ∧
       name ∉ getNamesForPeers resolve folder.exclude_peers) := by
  rw [included_chats_def, List.mem_insertionSort, List.mem_filter, List.mem_dedup,
    List.mem_append]
  constructor
  · rintro ⟨hin, hnc⟩
    refine ⟨hin, fun hmem => ?_⟩
    rw [Bool.not_eq_true', ← Bool.not_eq_true] at hnc
    exact hnc (List.elem_iff.mpr hmem)
  · rintro ⟨hin, hnm⟩
    refine ⟨hin, ?_⟩
    rw [Bool.not_eq_true', ← Bool.not_eq_true]
    exact fun hc => hnm (List.elem_iff.mp hc)

/-- The final included list never repeats a name. -/
lemma included_chats_nodup (resolve : Peer → Option Entity)
    (folder : DialogFilter) (all_dialogs : List Dialog) :
    (extractFolderRecord resolve folder all_dialogs).included_chats.Nodup := by
  rw [included_chats_def]
  exact ((List.perm_insertionSort _ _).nodup_iff).mpr
    ((List.nodup_dedup _).filter _)

/-! ### Claim theorems -/

/-- C1: for every folder and dialog list, a name is in the final included
list of the folder record iff it is explicitly included or rule-matched,
and not explicitly excluded; in particular an explicitly excluded name is
absent even when explicitly included or rule-matched. -/
theorem c1_final_included_is_union_minus_excluded (resolve : Peer → Option Entity)
    (folder : DialogFilter) (all_dialogs : List Dialog) :
    ∀ name : String,
      name ∈ (extractFolderRecord resolve folder all_dialogs).included_chats ↔
        ((name ∈ getNamesForPeers resolve folder.include_peers ∨
          name ∈ getRuleBasedChatNames folder all_dialogs) ∧
         name ∉ getNamesForPeers resolve folder.exclude_peers) :=
  fun name => mem_included_chats resolve folder all_dialogs name

/-- C3: the classifier returns exactly one of the five categories, with
Group taking precedence over Channel, Channel over the user cases, the
user case splitting on the entity's bot attribute, and Unknown otherwise;
a dialog flagged both group and channel classifies as Group. -/
theorem c3_classifier_totality_and_precedence (d : Dialog) :
    getChatTypeString d ∈ ["Group", "Channel", "Bot", "Personal", "Unknown"] ∧
    (getChatTypeString d = "Group" ↔ d.is_group = true) ∧
    (getChatTypeString d = "Channel" ↔ (d.is_group = false ∧ d.is_channel = true)) ∧
    (getChatTypeString d = "Bot" ↔
      (d.is_group = false ∧ d.is_channel = false ∧ d.is_user = true ∧
       d.entity.bot = true)) ∧
    (getChatTypeString d = "Personal" ↔
      (d.is_group = false ∧ d.is_channel = false ∧ d.is_user = true ∧
       d.entity.bot = false)) ∧
    (getChatTypeString d = "Unknown" ↔
      (d.is_group = false ∧ d.is_channel = false ∧ d.is_user = false)) := by
  obtain ⟨nm, g, c, u, m, uc, um, ar, eid, et, ef, ec, eb⟩ := d
  cases g <;> cases c <;> cases u <;> cases eb <;> simp [getChatTypeString]

/-- C6: for every folder and dialog list — including lists where several
dialogs share a name — the final included list of the record is sorted
lexicographically and duplicate-free. -/
theorem c6_final_included_sorted_and_nodup (resolve : Peer → Option Entity)
    (folder : DialogFilter) (all_dialogs : List Dialog) :
    (extractFolderRecord resolve folder all_dialogs).included_chats.Sorted (· ≤ ·) ∧
    (extractFolderRecord resolve folder all_dialogs).included_chats.Nodup :=
  ⟨by rw [included_chats_def]; exact List.sorted_insertionSort _ _,
   included_chats_nodup resolve folder all_dialogs⟩

/-- C9: the record's pinned and excluded name lists are exactly the
resolved input peer lists, slot for slot in input order, untouched by the
union, subtraction and sorting of the included list; and the eight rule
flags are copied unchanged from the folder definition. -/
theorem c9_pinned_excluded_order_and_flags_preserved (resolve : Peer → Option Entity)
    (folder : DialogFilter) (all_dialogs : List Dialog) :
    (extractFolderRecord resolve folder all_dialogs).pinned_chats =
      getNamesForPeers resolve folder.pinned_peers ∧
    (∀ i : Nat, (extractFolderRecord resolve folder all_dialogs).pinned_chats[i]? =
      (folder.pinned_peers[i]?).map (resolveOne resolve)) ∧
    (extractFolderRecord resolve folder all_dialogs).excluded_chats =
      getNamesForPeers resolve folder.exclude_peers ∧
    (∀ i : Nat, (extractFolderRecord resolve folder all_dialogs).excluded_chats[i]? =
      (folder.exclude_peers[i]?).map (resolveOne resolve)) ∧
    (extractFolderRecord resolve folder all_dialogs).rule_contacts = folder.contacts ∧
    (extractFolderRecord resolve folder all_dialogs).rule_non_contacts = folder.non_contacts ∧
    (extractFolderRecord resolve folder all_dialogs).rule_groups = folder.groups ∧
    (extractFolderRecord resolve folder all_dialogs).rule_channels = folder.broadcasts ∧
    (extractFolderRecord resolve folder all_dialogs).rule_bots = folder.bots ∧
    (extractFolderRecord resolve folder all_dialogs).rule_exclude_muted = folder.exclude_muted ∧
    (extractFolderRecord resolve folder all_dialogs).rule_exclude_read = folder.exclude_read ∧
    (extractFolderRecord resolve folder all_dialogs).rule_exclude_archived = folder.exclude_archived := by
  refine ⟨rfl, fun i => ?_, rfl, fun i => ?_, rfl, rfl, rfl, rfl, rfl, rfl, rfl, rfl⟩
  · show (getNamesForPeers resolve folder.pinned_peers)[i]? = _
    rw [getNamesForPeers_eq_map, List.getElem?_map]
  · show (getNamesForPeers resolve folder.exclude_peers)[i]? = _
    rw [getNamesForPeers_eq_map, List.getElem?_map]

/-- An entity with no special attributes, for concrete test dialogs. -/
def plainEntity : Entity :=
  { id := 1, title := none, first_name := none, contact := false, bot := false }

/-- Concrete folder for C2: exclude_muted and groups active, nothing else. -/
def c2Folder : DialogFilter :=
  { id := 1, title := ⟨"Work"⟩, emoticon := none,
    pinned_peers := [], include_peers := [], exclude_peers := [],
    contacts := false, non_contacts := false, groups := true, broadcasts := false,
    bots := false, exclude_muted := true, exclude_read := false,
    exclude_archived := false }

/-- Concrete muted group dialog named A. -/
def c2MutedGroupA : Dialog :=
  { name := "A", is_group := true, is_channel := false, is_user := false,
    muted := true, unread_count := 1, unread_mark := false, archived := false,
    entity := plainEntity }

/-- Concrete unmuted group dialog also named A. -/
def c2QuietGroupA : Dialog :=
  { name := "A", is_group := true, is_channel := false, is_user := false,
    muted := false, unread_count := 1, unread_mark := false, archived := false,
    entity := plainEntity }

/-- C2 as stated is false: under exclude_muted=true and groups=true, the
muted group A fires the exclusion toggle and satisfies the groups rule,
yet its name IS in the rule-based match set, contributed by a distinct
unmuted dialog with the same name. -/
theorem c2_counterexample :
    ruleExcludes c2Folder c2MutedGroupA = true ∧
    ruleIncludes c2Folder c2MutedGroupA = true ∧
    c2MutedGroupA ∈ [c2MutedGroupA, c2QuietGroupA] ∧
    c2MutedGroupA.name ∈ getRuleBasedChatNames c2Folder [c2MutedGroupA, c2QuietGroupA] := by
  decide

/-- C2 (amended): when an exclusion toggle fires for a dialog, the rule
matcher skips that dialog entirely — it contributes no entry even when
it satisfies an active inclusion rule, so deleting it changes nothing —
and its name is absent from the match set whenever every dialog bearing
that name also fires a toggle. -/
theorem c2_exclusion_short_circuit_skips_dialog (folder : DialogFilter) (d : Dialog)
    (hfire : ruleExcludes folder d = true) :
    (∀ ds1 ds2 : List Dialog,
      getRuleBasedChatNames folder (ds1 ++ d :: ds2) =
        getRuleBasedChatNames folder (ds1 ++ ds2)) ∧
    ∀ dialogs : List Dialog,
      (∀ d' ∈ dialogs, d'.name = d.name → ruleExcludes folder d' = true) →
        d.name ∉ getRuleBasedChatNames folder dialogs := by
  refine ⟨getRuleBasedChatNames_skip folder d (Or.inl hfire), ?_⟩
  intro dialogs hall hmem
  rw [mem_getRuleBasedChatNames] at hmem
  obtain ⟨d', hd', h1, h2, h3⟩ := hmem
  have h4 := hall d' hd' h3
  rw [h4] at h1
  cases h1

/-- Witness for the amended C2 at a concrete input: the muted group A is
the only dialog, its toggle fires, and A is not matched. -/
theorem c2_witness :
    ruleExcludes c2Folder c2MutedGroupA = true ∧
    c2MutedGroupA.name ∉ getRuleBasedChatNames c2Folder [c2MutedGroupA] :=
  ⟨by decide,
   (c2_exclusion_short_circuit_skips_dialog c2Folder c2MutedGroupA (by decide)).2
     [c2MutedGroupA]
     (by intro d' hd' _; rw [List.mem_singleton] at hd'; subst hd'; decide)⟩

/-- Concrete folder for C7: only the groups rule is active. -/
def c7Folder : DialogFilter :=
  { id := 2, title := ⟨"Groups"⟩, emoticon := none,
    pinned_peers := [], include_peers := [], exclude_peers := [],
    contacts := false, non_contacts := false, groups := true, broadcasts := false,
    bots := false, exclude_muted := false, exclude_read := false,
    exclude_archived := false }

/-- Concrete group dialog named A with one unread message. -/
def c7GroupA1 : Dialog :=
  { name := "A", is_group := true, is_channel := false, is_user := false,
    muted := false, unread_count := 1, unread_mark := false, archived := false,
    entity := plainEntity }

/-- A distinct concrete group dialog also named A. -/
def c7GroupA2 : Dialog :=
  { name := "A", is_group := true, is_channel := false, is_user := false,
    muted := false, unread_count := 2, unread_mark := false, archived := false,
    entity := plainEntity }

/-- C7 as stated is false of the rule matcher's own result: two distinct
dialogs sharing the name A both match the groups rule and the function
returns the name twice — duplicate names across distinct dialogs do not
collapse in the matcher's list; collapse happens downstream. -/
theorem c7_counterexample :
    c7GroupA1 ≠ c7GroupA2 ∧
    ruleIncludes c7Folder c7GroupA1 = true ∧
    ruleIncludes c7Folder c7GroupA2 = true ∧
    getRuleBasedChatNames c7Folder [c7GroupA1, c7GroupA2] = ["A", "A"] ∧
    (getRuleBasedChatNames c7Folder [c7GroupA1, c7GroupA2]).count "A" = 2 := by
  decide

/-- C7 (amended): each dialog contributes its name at most once — exactly
one occurrence per dialog that survives exclusion, matches some active
rule and bears the name, however many rules it matches — while duplicate
names across distinct dialogs survive in the matcher's raw list and only
collapse to a single entry in the membership resolver's included list. -/
theorem c7_one_entry_per_matching_dialog (folder : DialogFilter)
    (dialogs : List Dialog) (name : String) :
    (getRuleBasedChatNames folder dialogs).count name =
      (dialogs.filter (fun d =>
        !ruleExcludes folder d && ruleIncludes folder d && d.name == name)).length ∧
    ∀ resolve : Peer → Option Entity,
      ((extractFolderRecord resolve folder dialogs).included_chats).count name ≤ 1 :=
  ⟨count_getRuleBasedChatNames folder name dialogs,
   fun resolve =>
     List.nodup_iff_count_le_one.mp (included_chats_nodup resolve folder dialogs) name⟩

/-- C10: for a dialog with all three type flags false and neither contact
nor bot attribute, every one of the five inclusion predicates is false
for every folder, the inclusion test fails, and the matcher's output does
not change if the dialog is deleted from the list — it can never pull the
dialog in, whatever the folder's rule flags. -/
theorem c10_unknown_dialog_never_rule_matched (folder : DialogFilter) (d : Dialog)
    (h1 : d.is_group = false) (h2 : d.is_channel = false) (h3 : d.is_user = false)
    (h4 : d.entity.contact = false) (h5 : d.entity.bot = false) :
    (folder.contacts && d.entity.contact) = false ∧
    (folder.groups && d.is_group) = false ∧
    (folder.broadcasts && d.is_channel) = false ∧
    (folder.bots && d.entity.bot) = false ∧
    (folder.non_contacts && (d.is_user && !d.entity.contact && !d.entity.bot)) = false ∧
    ruleIncludes folder d = false ∧
    ∀ ds1 ds2 : List Dialog,
      getRuleBasedChatNames folder (ds1 ++ d :: ds2) =
        getRuleBasedChatNames folder (ds1 ++ ds2) := by
  have hinc : ruleIncludes folder d = false := by
    simp [ruleIncludes, h1, h2, h3, h4, h5]
  exact ⟨by simp [h4], by simp [h1], by simp [h2], by simp [h5], by simp [h3], hinc,
    getRuleBasedChatNames_skip folder d (Or.inr hinc)⟩

/-- Concrete folder for the C10 witness: all five inclusion rules active. -/
def c10Folder : DialogFilter :=
  { id := 3, title := ⟨"Everything"⟩, emoticon := none,
    pinned_peers := [], include_peers := [], exclude_peers := [],
    contacts := true, non_contacts := true, groups := true, broadcasts := true,
    bots := true, exclude_muted := false, exclude_read := false,
    exclude_archived := false }

/-- A concrete Unknown-type dialog: no type flag, no contact, no bot. -/
def c10Unknown : Dialog :=
  { name := "Mystery", is_group := false, is_channel := false, is_user := false,
    muted := false, unread_count := 0, unread_mark := false, archived := false,
    entity := plainEntity }

/-- Witness for C10: even with every inclusion rule active, the Unknown
dialog is never matched. -/
theorem c10_witness :
    (c10Folder.contacts && c10Unknown.entity.contact) = false ∧
    (c10Folder.groups && c10Unknown.is_group) = false ∧
    (c10Folder.broadcasts && c10Unknown.is_channel) = false ∧
    (c10Folder.bots && c10Unknown.entity.bot) = false ∧
    (c10Folder.non_contacts &&
      (c10Unknown.is_user && !c10Unknown.entity.contact && !c10Unknown.entity.bot)) = false ∧
    ruleIncludes c10Folder c10Unknown = false ∧
    ∀ ds1 ds2 : List Dialog,
      getRuleBasedChatNames c10Folder (ds1 ++ c10Unknown :: ds2) =
        getRuleBasedChatNames c10Folder (ds1 ++ ds2) :=
  c10_unknown_dialog_never_rule_matched c10Folder c10Unknown rfl rfl rfl rfl rfl

/-- C4: the resolver returns one name per peer, slot i of the output
determined by peer i alone whatever resolutions fail; the empty input
yields the empty output with zero resolution requests; and under an
all-failing resolver every output element is the placeholder of some
input peer and is non-empty. -/
theorem c4_resolver_alignment (resolve : Peer → Option Entity) (peers : List Peer) :
    (getNamesForPeers resolve peers).length = peers.length ∧
    (∀ i : Nat, (getNamesForPeers resolve peers)[i]? =
      (peers[i]?).map (resolveOne resolve)) ∧
    getNamesForPeers resolve ([] : List Peer) = [] ∧
    resolutionRequests ([] : List Peer) = 0 ∧
    ((∀ p ∈ peers, resolve p = none) →
      ∀ s ∈ getNamesForPeers resolve peers,
        (∃ p ∈ peers,
          s = "Unknown/Inaccessible Entity (ID: " ++ peerIdStr p ++ ")") ∧
        s ≠ "") := by
  refine ⟨?_, fun i => ?_, rfl, rfl, ?_⟩
  · rw [getNamesForPeers_eq_map]; exact List.length_map _ _
  · rw [getNamesForPeers_eq_map, List.getElem?_map]
  · intro hall s hs
    rw [getNamesForPeers_eq_map] at hs
    obtain ⟨p, hp, rfl⟩ := List.mem_map.mp hs
    have hnone := hall p hp
    refine ⟨⟨p, hp, by rw [resolveOne, hnone]⟩, fun hempty => ?_⟩
    rw [resolveOne, hnone] at hempty
    have hlen := congrArg String.length hempty
    rw [String.length_append, String.length_append] at hlen
    have hl1 : ("Unknown/Inaccessible Entity (ID: ").length = 33 := rfl
    have hl2 : (")").length = 1 := rfl
    have hl3 : ("").length = 0 := rfl
    rw [hl1, hl2, hl3] at hlen
    omega

/-- Witness for C4 with a one-peer all-failing input. -/
theorem c4_witness :
    (∃ p ∈ ([Peer.user 7] : List Peer),
      "Unknown/Inaccessible Entity (ID: 7)" =
        "Unknown/Inaccessible Entity (ID: " ++ peerIdStr p ++ ")") ∧
    "Unknown/Inaccessible Entity (ID: 7)" ≠ "" :=
  (c4_resolver_alignment (fun _ => none) [Peer.user 7]).2.2.2.2
    (by intro p hp; rfl) "Unknown/Inaccessible Entity (ID: 7)" (by decide)

/-- C5 as stated is false for chat peers: a failed `PeerChat(42)` yields
the placeholder with the literal N/A — `getattr(peer, 'channel_id',
getattr(peer, 'user_id', 'N/A'))` never reads `chat_id` — so the digits
of the raw identifier 42 appear nowhere in the output string. -/
theorem c5_counterexample :
    getNamesForPeers (fun _ => (none : Option Entity)) [Peer.chat 42] =
      ["Unknown/Inaccessible Entity (ID: N/A)"] ∧
    '4' ∉ "Unknown/Inaccessible Entity (ID: N/A)".data ∧
    "Unknown/Inaccessible Entity (ID: N/A)" ≠
      "Unknown/Inaccessible Entity (ID: " ++ toString (42 : Nat) ++ ")" := by
  decide

/-- C5 (amended): a failed resolution never fails the batch — every slot
is still produced, each a function of its own peer only — and the failed
slot's placeholder embeds the channel id for channel peers and the user
id for user peers, but the literal N/A (not the chat id) for chat
peers. -/
theorem c5_per_peer_failure_degrades_to_placeholder (resolve : Peer → Option Entity)
    (peers : List Peer) (i : Nat) (p : Peer)
    (hp : peers[i]? = some p) (hfail : resolve p = none) :
    (getNamesForPeers resolve peers)[i]? =
      some ("Unknown/Inaccessible Entity (ID: " ++ peerIdStr p ++ ")") ∧
    (∀ j : Nat, ∀ q : Peer, peers[j]? = some q →
      (getNamesForPeers resolve peers)[j]? = some (resolveOne resolve q)) ∧
    (∀ n : Nat, peerIdStr (Peer.channel n) = toString n) ∧
    (∀ n : Nat, peerIdStr (Peer.user n) = toString n) ∧
    (∀ n : Nat, peerIdStr (Peer.chat n) = "N/A") := by
  refine ⟨?_, fun j q hq => ?_, fun n => rfl, fun n => rfl, fun n => rfl⟩
  · rw [getNamesForPeers_eq_map, List.getElem?_map, hp, Option.map_some']
    rw [resolveOne, hfail]
  · rw [getNamesForPeers_eq_map, List.getElem?_map, hq, Option.map_some']

/-- Witness for the amended C5: a failed channel peer degrades to the
placeholder embedding its channel id. -/
theorem c5_witness :
    ([Peer.channel 9] : List Peer)[0]? = some (Peer.channel 9) ∧
    (getNamesForPeers (fun _ => (none : Option Entity)) [Peer.channel 9])[0]? =
      some ("Unknown/Inaccessible Entity (ID: " ++ peerIdStr (Peer.channel 9) ++ ")") :=
  ⟨rfl,
   (c5_per_peer_failure_degrades_to_placeholder (fun _ => none) [Peer.channel 9] 0
     (Peer.channel 9) rfl rfl).1⟩

/-- C8: a successfully resolved entity's display name is its title when
present, else its first name when present, else the synthesized
User-id string — in that priority order. -/
theorem c8_resolved_name_priority (resolve : Peer → Option Entity) (p : Peer)
    (e : Entity) (hres : resolve p = some e) :
    resolveOne resolve p = entityName e ∧
    (∀ t, e.title = some t → entityName e = t) ∧
    (e.title = none → ∀ f, e.first_name = some f → entityName e = f) ∧
    (e.title = none → e.first_name = none →
      entityName e = "User " ++ toString e.id) := by
  refine ⟨by rw [resolveOne, hres], fun t ht => ?_, fun ht f hf => ?_, fun ht hf => ?_⟩
  · rw [entityName, ht]
  · rw [entityName, ht, hf]
  · rw [entityName, ht, hf]

/-- A concrete entity exposing both a title and a first name. -/
def c8Entity : Entity :=
  { id := 5, title := some "Team", first_name := some "Bob",
    contact := false, bot := false }

/-- Witness for C8: with both attributes present the title wins. -/
theorem c8_witness :
    resolveOne (fun _ => (some c8Entity : Option Entity)) (Peer.user 5) =
      entityName c8Entity ∧
    entityName c8Entity = "Team" :=
  ⟨(c8_resolved_name_priority (fun _ => some c8Entity) (Peer.user 5) c8Entity rfl).1,
   (c8_resolved_name_priority (fun _ => some c8Entity) (Peer.user 5) c8Entity rfl).2.1
     "Team" rfl⟩

end Tfolex
